import Mathlib

/-!
Verification development for the RTS browser client
(`src/web/main.js` and the unnamed near-duplicate variants, notably
`src/unnamed/part_001`).  The embedding translates the client's
snapshot-reconciliation, picking, selection, command-dispatch and
socket-lifecycle logic into executable Lean definitions.  JSON numbers
are modelled as `ℚ` (the client performs only field arithmetic and
comparisons on them), JS `null`-able strings as `Option String`, JS
`Map`s as association lists with JS `Map` insertion semantics, and JS
`Set`s as lists used up to membership.  Display-only artefacts (DOM
nodes, tooltip label strings, event-log text, WebGL geometry) are
outside the embedding; every field the reconciliation and interaction
logic reads or writes is kept.
-/

namespace RTS

/-- Entity category tag, as carried in `userData.kind` / pick results
(the source compares the string literals "unit" / "building" /
"resource"). -/
inductive Kind where
  | unit
  | building
  | resource
deriving DecidableEq, Repr

/-- Player record from a snapshot's `players` mapping; the client reads
`color` and `credits`. -/
structure Player where
  color : String
  credits : ℚ
deriving DecidableEq, Repr

/-- Unit record from a snapshot (`id`, `owner`, `type`, `position`,
`hp`, `max_hp`). -/
structure GameUnit where
  id : String
  owner : Option String
  type : String
  pos : ℚ × ℚ
  hp : ℚ
  maxHp : ℚ
deriving DecidableEq, Repr

/-- Building record from a snapshot. -/
structure GameBuilding where
  id : String
  owner : Option String
  type : String
  pos : ℚ × ℚ
  hp : ℚ
  maxHp : ℚ
deriving DecidableEq, Repr

/-- Resource-node record from a snapshot (`id`, `position`,
`remaining`); resources carry no owner. -/
structure GameResource where
  id : String
  pos : ℚ × ℚ
  remaining : ℚ
deriving DecidableEq, Repr

/-- A full `state` snapshot payload (`message.state`). -/
structure GameState where
  mapSize : ℚ × ℚ
  players : List (String × Player)
  units : List GameUnit
  buildings : List GameBuilding
  resources : List GameResource
  events : List String
deriving DecidableEq, Repr

/-- Colour constant `COLORS.enemy` shared by both variants. -/
def enemyColor : String := "#ef4444"

/-- Colour constant `COLORS.neutral` shared by both variants. -/
def neutralColor : String := "#facc15"

/-- Translation of `getPlayerColor(owner)` (identical in
`src/web/main.js` and `src/unnamed/part_001`): null owner gives the
enemy colour, missing game state falls back to the cached local player
colour, an unknown player id gives the enemy colour, and a player's
falsy (empty) colour string also falls back to the enemy colour. -/
def getPlayerColor (gameState : Option GameState) (playerColor : String)
    (owner : Option String) : String :=
  match owner with
  | none => enemyColor
  | some o =>
    match gameState with
    | none => playerColor
    | some gs =>
      match gs.players.lookup o with
      | none => enemyColor
      | some p => if p.color = "" then enemyColor else p.color

/-- JS `Map.prototype.get`: first binding of the key, if any. -/
def mapGet {β : Type} : List (String × β) → String → Option β
  | [], _ => none
  | p :: t, k => if p.1 = k then some p.2 else mapGet t k

/-- JS `Map.prototype.set`: update the existing binding in place, or
append a new binding at the end (JS `Map` preserves insertion order). -/
def mapSet {β : Type} (m : List (String × β)) (k : String) (v : β) :
    List (String × β) :=
  if (mapGet m k).isSome then
    m.map (fun p => if p.1 = k then (k, v) else p)
  else
    m ++ [(k, v)]

/-- Result of one per-category reconciliation pass: the new mirror map
plus the observable proxy lifecycle events (ids for which the
create-branch ran, and ids whose proxies were removed and disposed). -/
structure SyncResult (β : Type) where
  meshes : List (String × β)
  created : List String
  destroyed : List String
deriving DecidableEq, Repr

/-- One iteration of the per-entity loop shared by
`updateUnits`/`updateBuildings`/`updateResources` (`src/web/main.js`,
lines 431-489) and `syncUnits`/`syncBuildings`/`syncResources`
(`src/unnamed/part_001`, lines 379-443): record the id as seen, create
a proxy if none exists, then update the proxy's mutable fields.  The
accumulator is (mirror map, seen ids, created ids). -/
def syncStep {α β : Type} (create : α → β) (update : β → α → β)
    (getId : α → String)
    (acc : List (String × β) × List String × List String) (e : α) :
    List (String × β) × List String × List String :=
  match mapGet acc.1 (getId e) with
  | some mesh =>
    (mapSet acc.1 (getId e) (update mesh e), acc.2.1 ++ [getId e], acc.2.2)
  | none =>
    (mapSet acc.1 (getId e) (update (create e) e),
     acc.2.1 ++ [getId e], acc.2.2 ++ [getId e])

/-- A whole per-category reconciliation pass: phase 1 walks the
snapshot's entity list (create-or-update, collecting `seen`), phase 2
walks the mirror map and removes (disposing) every entry whose id was
not seen.  Both source variants implement exactly this loop pair per
category. -/
def syncMeshes {α β : Type} (create : α → β) (update : β → α → β)
    (getId : α → String) (meshes0 : List (String × β)) (entities : List α) :
    SyncResult β :=
  let r := entities.foldl (syncStep create update getId) (meshes0, [], [])
  { meshes := r.1.filter (fun p => decide (p.1 ∈ r.2.1))
    created := r.2.2
    destroyed := (r.1.filter (fun p => !decide (p.1 ∈ r.2.1))).map Prod.fst }

/-! Embedding of the `src/web/main.js` render-proxy functions used by
its reconciliation pass (`updateUnits` / `updateBuildings` /
`updateResources`, lines 431-489).  A proxy is modelled by the fields
the reconciliation code writes: world position, material colour, and
the `userData` identification fields.  Tooltip label strings and the
selection-emissive channel are display-only and omitted. -/

/-- Shape parameters from `getUnitDimensions(type)` in
`src/web/main.js`. -/
structure UnitDims where
  radius : ℚ
  height : ℚ
  segments : ℕ
deriving DecidableEq, Repr

/-- Translation of `getUnitDimensions` (`src/web/main.js`, lines
610-631). -/
def getUnitDimensions (type : String) : UnitDims :=
  if type = "ore_miner" then ⟨16/5, 3, 18⟩
  else if type = "grizzly_tank" ∨ type = "mirage_tank" then ⟨3, 13/5, 20⟩
  else if type = "prism_tank" then ⟨16/5, 14/5, 22⟩
  else if type = "ifv" then ⟨12/5, 11/5, 18⟩
  else if type = "gi" then ⟨13/10, 2, 12⟩
  else if type = "rocketeer" then ⟨6/5, 11/5, 12⟩
  else if type = "conscript" ∨ type = "engineer" then ⟨11/10, 9/5, 12⟩
  else ⟨8/5, 9/5, 12⟩

/-- Shape parameters from `getBuildingDimensions(type)` in
`src/web/main.js`. -/
structure BuildingDims where
  width : ℚ
  height : ℚ
  depth : ℚ
deriving DecidableEq, Repr

/-- Translation of `getBuildingDimensions` (`src/web/main.js`, lines
633-652). -/
def getBuildingDimensions (type : String) : BuildingDims :=
  if type = "construction_yard" then ⟨12, 8, 12⟩
  else if type = "war_factory" then ⟨14, 7, 10⟩
  else if type = "barracks" then ⟨9, 6, 9⟩
  else if type = "ore_refinery" then ⟨10, 6, 10⟩
  else if type = "power_plant" then ⟨8, 7, 8⟩
  else if type = "airforce_command" then ⟨11, 7, 11⟩
  else if type = "prism_tower" then ⟨4, 12, 4⟩
  else ⟨8, 6, 8⟩

/-- Render proxy of the `src/web/main.js` variant: a single mesh whose
reconciliation-visible state is its position, material colour and
`userData` fields (`id`, `owner`, `kind`, `type`; resources carry no
`type`). -/
structure Mesh where
  id : String
  owner : Option String
  kind : Kind
  type : Option String
  pos : ℚ × ℚ × ℚ
  color : String
deriving DecidableEq, Repr

/-- Translation of `createUnitMesh` (`src/web/main.js`, lines 491-509):
colour from `getPlayerColor`, `userData` identification, position at
the three.js default origin until first update. -/
def createUnitMesh (gameState : Option GameState) (playerColor : String)
    (u : GameUnit) : Mesh :=
  { id := u.id, owner := u.owner, kind := Kind.unit, type := some u.type
    pos := (0, 0, 0)
    color := getPlayerColor gameState playerColor u.owner }

/-- Translation of `updateUnitMesh` (`src/web/main.js`, lines 511-519):
reposition at `(x, height/2, y)`, refresh colour, owner and type. -/
def updateUnitMesh (gameState : Option GameState) (playerColor : String)
    (m : Mesh) (u : GameUnit) : Mesh :=
  let d := getUnitDimensions u.type
  { m with pos := (u.pos.1, d.height / 2, u.pos.2)
           color := getPlayerColor gameState playerColor u.owner
           owner := u.owner
           type := some u.type }

/-- Translation of `createBuildingMesh` (`src/web/main.js`, lines
521-543). -/
def createBuildingMesh (gameState : Option GameState) (playerColor : String)
    (b : GameBuilding) : Mesh :=
  { id := b.id, owner := b.owner, kind := Kind.building, type := some b.type
    pos := (0, 0, 0)
    color := getPlayerColor gameState playerColor b.owner }

/-- Translation of `updateBuildingMesh` (`src/web/main.js`, lines
545-553). -/
def updateBuildingMesh (gameState : Option GameState) (playerColor : String)
    (m : Mesh) (b : GameBuilding) : Mesh :=
  let d := getBuildingDimensions b.type
  { m with pos := (b.pos.1, d.height / 2, b.pos.2)
           color := getPlayerColor gameState playerColor b.owner
           owner := b.owner
           type := some b.type }

/-- Translation of `createResourceMesh` (`src/web/main.js`, lines
555-565): neutral colour, `userData` without a `type` field. -/
def createResourceMesh (r : GameResource) : Mesh :=
  { id := r.id, owner := none, kind := Kind.resource, type := none
    pos := (0, 0, 0)
    color := neutralColor }

/-- Translation of `updateResourceMesh` (`src/web/main.js`, lines
567-571): reposition at `(x, 0.75, y)`; colour is not touched. -/
def updateResourceMesh (m : Mesh) (r : GameResource) : Mesh :=
  { m with pos := (r.pos.1, 3/4, r.pos.2) }

/-- Translation of `updateUnits` (`src/web/main.js`, lines 431-449):
the per-category reconciliation pass over the snapshot's units.  When
this runs, the global `gameState` holds the snapshot being applied. -/
def updateUnits (gs : GameState) (playerColor : String)
    (unitMeshes : List (String × Mesh)) : SyncResult Mesh :=
  syncMeshes (createUnitMesh (some gs) playerColor)
    (updateUnitMesh (some gs) playerColor) (fun u => u.id) unitMeshes gs.units

/-- Translation of `updateBuildings` (`src/web/main.js`, lines
451-469). -/
def updateBuildings (gs : GameState) (playerColor : String)
    (buildingMeshes : List (String × Mesh)) : SyncResult Mesh :=
  syncMeshes (createBuildingMesh (some gs) playerColor)
    (updateBuildingMesh (some gs) playerColor) (fun b => b.id) buildingMeshes
    gs.buildings

/-- Translation of `updateResources` (`src/web/main.js`, lines
471-489). -/
def updateResources (gs : GameState)
    (resourceMeshes : List (String × Mesh)) : SyncResult Mesh :=
  syncMeshes createResourceMesh updateResourceMesh (fun r => r.id)
    resourceMeshes gs.resources

/-- Translation of `syncScene` (`src/web/main.js`, lines 424-429): the
three per-category passes; each acts on its own mirror map. -/
def syncScene (gs : GameState) (playerColor : String)
    (unitMeshes buildingMeshes resourceMeshes : List (String × Mesh)) :
    SyncResult Mesh × SyncResult Mesh × SyncResult Mesh :=
  (updateUnits gs playerColor unitMeshes,
   updateBuildings gs playerColor buildingMeshes,
   updateResources gs resourceMeshes)

/-! Embedding of the `src/unnamed/part_001` variant: its render proxies
are `THREE.Group`s holding a body mesh and a selection-highlight ring;
positions are in world space via `mapToWorld`. -/

/-- Shape parameters from `unitGeometryForType` (`src/unnamed/part_001`,
lines 548-569): body height and highlight-ring radius. -/
structure P1UnitGeom where
  height : ℚ
  highlightRadius : ℚ
deriving DecidableEq, Repr

/-- Translation of `unitGeometryForType` (`src/unnamed/part_001`). -/
def unitGeometryForType (type : String) : P1UnitGeom :=
  if type = "tank" then ⟨11/10, 21/10⟩
  else if type = "harvester" then ⟨6/5, 19/10⟩
  else ⟨17/10, 6/5⟩

/-- Translation of `buildingGeometryForType` (`src/unnamed/part_001`,
lines 571-586). -/
def buildingGeometryForType (type : String) : P1UnitGeom :=
  if type = "factory" then ⟨4, 13/2⟩
  else ⟨9/2, 11/2⟩

/-- Unit/building render proxy of the `src/unnamed/part_001` variant: a
group with a body (position offset `bodyY`, colour, emissive channel
stored as base colour and scale factor) and a highlight ring. -/
structure GroupMesh where
  kind : Kind
  id : String
  pos : ℚ × ℚ × ℚ
  bodyY : ℚ
  bodyColor : String
  emissive : String × ℚ
  highlightVisible : Bool
  highlightRadius : ℚ
deriving DecidableEq, Repr

/-- Resource render proxy of the `src/unnamed/part_001` variant: a bare
cylinder mesh. -/
structure ResMesh where
  kind : Kind
  id : String
  pos : ℚ × ℚ × ℚ
  color : String
  emissive : String × ℚ
deriving DecidableEq, Repr

/-- Translation of `mapToWorld` (`src/unnamed/part_001`, lines
626-631): map coordinates are recentred around the origin. -/
def mapToWorld (mapSize : ℚ × ℚ) (p : ℚ × ℚ) : ℚ × ℚ :=
  (p.1 - mapSize.1 / 2, p.2 - mapSize.2 / 2)

/-- Translation of `createUnitMesh` (`src/unnamed/part_001`, lines
445-469): white body, hidden highlight, position set by the following
update call. -/
def createUnitMeshP1 (u : GameUnit) : GroupMesh :=
  let g := unitGeometryForType u.type
  { kind := Kind.unit, id := u.id, pos := (0, 0, 0), bodyY := g.height / 2
    bodyColor := "#ffffff", emissive := ("#000000", 1)
    highlightVisible := false, highlightRadius := g.highlightRadius }

/-- Translation of `updateUnitMesh` (`src/unnamed/part_001`, lines
471-479).  The health ratio `max 0.25 (hp / max_hp)` is exact in `ℚ`
except at `max_hp = 0`, where JS produces `NaN` and this embedding the
floor value; no claim depends on the emissive channel. -/
def updateUnitMeshP1 (gameState : Option GameState) (playerColor : String)
    (mapSize : ℚ × ℚ) (m : GroupMesh) (u : GameUnit) : GroupMesh :=
  let color := getPlayerColor gameState playerColor u.owner
  let w := mapToWorld mapSize u.pos
  let healthRatio := max (1/4) (u.hp / u.maxHp)
  { m with bodyColor := color, pos := (w.1, 0, w.2)
           emissive := (color, 1/5 * healthRatio) }

/-- Translation of `createBuildingMesh` (`src/unnamed/part_001`, lines
481-504). -/
def createBuildingMeshP1 (b : GameBuilding) : GroupMesh :=
  let g := buildingGeometryForType b.type
  { kind := Kind.building, id := b.id, pos := (0, 0, 0), bodyY := g.height / 2
    bodyColor := "#ffffff", emissive := ("#000000", 1)
    highlightVisible := false, highlightRadius := g.highlightRadius }

/-- Translation of `updateBuildingMesh` (`src/unnamed/part_001`, lines
506-514). -/
def updateBuildingMeshP1 (gameState : Option GameState) (playerColor : String)
    (mapSize : ℚ × ℚ) (m : GroupMesh) (b : GameBuilding) : GroupMesh :=
  let color := getPlayerColor gameState playerColor b.owner
  let w := mapToWorld mapSize b.pos
  let hpRatio := max (7/20) (b.hp / b.maxHp)
  { m with bodyColor := color, pos := (w.1, 0, w.2)
           emissive := (color, 3/20 * hpRatio) }

/-- Translation of `createResourceMesh` (`src/unnamed/part_001`, lines
516-529). -/
def createResourceMeshP1 (r : GameResource) : ResMesh :=
  { kind := Kind.resource, id := r.id, pos := (0, 3/5, 0)
    color := neutralColor, emissive := ("#000000", 1) }

/-- Translation of `updateResourceMesh` (`src/unnamed/part_001`, lines
531-536). -/
def updateResourceMeshP1 (mapSize : ℚ × ℚ) (m : ResMesh) (r : GameResource) :
    ResMesh :=
  let w := mapToWorld mapSize r.pos
  let intensity := max (3/10) (min 1 (r.remaining / 5000))
  { m with pos := (w.1, 0, w.2), emissive := (neutralColor, 1/4 * intensity) }

/-- Commands the client can place on the wire (`sendCommand` payloads
of both variants). -/
inductive Command where
  | move (unitIds : List String) (x y : ℚ)
  | attack (unitIds : List String) (targetId : String)
  | harvest (unitIds : List String) (resourceId : String)
  | buildUnit (buildingId : String) (unitType : String)
deriving DecidableEq, Repr

/-- The module-level mutable client state of `src/unnamed/part_001`
(socket, `playerId`, `playerColor`, `gameState`, `selectedUnits`,
`selectedBuilding`, `mapSize`, and the three mirror maps).  The JS
`Set` of selected unit ids is a list used up to membership; `socketOpen`
models `socket && socket.readyState === WebSocket.OPEN`. -/
structure ClientState where
  socketOpen : Bool
  playerId : Option String
  playerColor : String
  gameState : Option GameState
  selectedUnits : List String
  selectedBuilding : Option String
  mapSize : ℚ × ℚ
  unitMeshes : List (String × GroupMesh)
  buildingMeshes : List (String × GroupMesh)
  resourceMeshes : List (String × ResMesh)
deriving DecidableEq, Repr

/-- Translation of `updateSelectionHighlights` (`src/unnamed/part_001`,
lines 588-601): each unit/building proxy's highlight ring mirrors its
membership in the current selection. -/
def updateSelectionHighlightsP1 (st : ClientState) : ClientState :=
  { st with
    unitMeshes := st.unitMeshes.map (fun p =>
      (p.1, { p.2 with highlightVisible := st.selectedUnits.contains p.1 }))
    buildingMeshes := st.buildingMeshes.map (fun p =>
      (p.1, { p.2 with
        highlightVisible := decide (st.selectedBuilding = some p.1) })) }

/-- Translation of `updateScene` (`src/unnamed/part_001`, lines
312-319): run the three per-category reconciliation passes, then
refresh selection highlights.  Each `sync*` function returns early when
`gameState` is null.  Renderer resizing and ground-geometry rebuilding
are display-only and omitted. -/
def updateScene (st : ClientState) : ClientState :=
  match st.gameState with
  | none => st
  | some gs =>
    let rr := syncMeshes createResourceMeshP1 (updateResourceMeshP1 st.mapSize)
      (fun r => r.id) st.resourceMeshes gs.resources
    let rb := syncMeshes createBuildingMeshP1
      (updateBuildingMeshP1 (some gs) st.playerColor st.mapSize)
      (fun b => b.id) st.buildingMeshes gs.buildings
    let ru := syncMeshes createUnitMeshP1
      (updateUnitMeshP1 (some gs) st.playerColor st.mapSize)
      (fun u => u.id) st.unitMeshes gs.units
    updateSelectionHighlightsP1
      { st with unitMeshes := ru.meshes, buildingMeshes := rb.meshes
                resourceMeshes := rr.meshes }

/-- Translation of the `state` branch of the socket `message` handler
(`src/unnamed/part_001`, lines 179-197): store the snapshot and map
size, refresh the cached player colour, prune `selectedUnits` of ids
absent from the snapshot, clear `selectedBuilding` when its id is
absent, then reconcile the scene.  Event-log DOM output is omitted. -/
def handleStateMessage (st : ClientState) (snap : GameState) : ClientState :=
  let playerColor :=
    match st.playerId with
    | none => st.playerColor
    | some pid =>
      match snap.players.lookup pid with
      | none => st.playerColor
      | some p => p.color
  let existingUnits := snap.units.map (fun u => u.id)
  let selectedUnits := st.selectedUnits.filter
    (fun id => existingUnits.contains id)
  let selectedBuilding :=
    if snap.buildings.any (fun b => decide (some b.id = st.selectedBuilding))
    then st.selectedBuilding else none
  updateScene
    { st with gameState := some snap, mapSize := snap.mapSize
              playerColor := playerColor, selectedUnits := selectedUnits
              selectedBuilding := selectedBuilding }

/-- Translation of the socket `close` handler (`src/unnamed/part_001`,
lines 203-209): discard `playerId`, empty the unit selection, clear the
selected building.  Nothing else is touched; in particular the three
mirror maps keep their proxies.  Status-label and event-log output are
display-only and omitted; the socket is no longer open. -/
def closeHandler (st : ClientState) : ClientState :=
  { st with socketOpen := false, playerId := none
            selectedUnits := [], selectedBuilding := none }

/-- A pick result: the `{id, owner, kind}` object returned by
`pickEntity` (tooltip label text omitted). -/
structure Picked where
  id : String
  owner : Option String
  kind : Kind
deriving DecidableEq, Repr

/-- Unit pick radius: the literal `threshold = 3.2` of `pickEntity`
(`src/unnamed/part_001`, line 272). -/
def unitPickThreshold : ℚ := 16/5

/-- Circle-containment test `Math.hypot(dx, dy) < r`, stated on squares
(for `r ≥ 0` the two are equivalent, and squares are exact in `ℚ`). -/
def withinRadius (px py x y r : ℚ) : Bool :=
  decide ((px - x) * (px - x) + (py - y) * (py - y) < r * r)

/-- Axis-aligned box test of the building branch of `pickEntity`:
`x >= bx - size && x <= bx + size && y >= by - size && y <= by + size`
with `size = 6`. -/
def withinBuildingBox (bx bY x y : ℚ) : Bool :=
  decide (x ≥ bx - 6 ∧ x ≤ bx + 6 ∧ y ≥ bY - 6 ∧ y ≤ bY + 6)

/-- Translation of `pickEntity` (`src/unnamed/part_001`, lines
270-310): scan units in snapshot order and return the first within the
radius threshold; otherwise scan buildings with the box test; otherwise
scan resources with the enlarged radius `threshold + 1.5`; otherwise
null. -/
def pickEntity (gs : GameState) (x y : ℚ) : Option Picked :=
  match gs.units.find?
      (fun u => withinRadius u.pos.1 u.pos.2 x y unitPickThreshold) with
  | some u => some ⟨u.id, u.owner, Kind.unit⟩
  | none =>
    match gs.buildings.find?
        (fun b => withinBuildingBox b.pos.1 b.pos.2 x y) with
    | some b => some ⟨b.id, b.owner, Kind.building⟩
    | none =>
      match gs.resources.find? (fun r =>
          withinRadius r.pos.1 r.pos.2 x y (unitPickThreshold + 3/2)) with
      | some r => some ⟨r.id, none, Kind.resource⟩
      | none => none

/-- The `if (!gameState) return null` guard at the top of
`pickEntity`. -/
def pickEntityOpt (gs : Option GameState) (x y : ℚ) : Option Picked :=
  match gs with
  | none => none
  | some g => pickEntity g x y

/-- Translation of `sendCommand` (`src/unnamed/part_001`, lines
212-215): the command reaches the wire only while the socket is open;
the returned value is the wire message's `command` payload, `none` when
nothing is sent. -/
def sendCommand (st : ClientState) (c : Command) : Option Command :=
  if st.socketOpen then some c else none

/-- JS truthiness of a nullable string (`target.owner &&` in
`handleCommand`): null and the empty string are falsy. -/
def ownerTruthy : Option String → Bool
  | none => false
  | some s => !(s = "")

/-- Translation of `handleSelection` (`src/unnamed/part_001`, lines
217-237): pick at the map point; a non-additive gesture first clears
both selections; an owned-unit pick toggles set membership (JS
`Set.add` appends, `Set.delete` removes); an owned-building pick
replaces the selected building; any other pick leaves the selection as
is; highlights are refreshed on every path. -/
def handleSelection (st : ClientState) (x y : ℚ) (additive : Bool) :
    ClientState :=
  let picked := pickEntityOpt st.gameState x y
  let st1 := if additive then st
    else { st with selectedUnits := [], selectedBuilding := none }
  match picked with
  | none => updateSelectionHighlightsP1 st1
  | some p =>
    let st2 :=
      if p.owner = st1.playerId ∧ p.kind = Kind.unit then
        if st1.selectedUnits.contains p.id then
          let su := st1.selectedUnits.filter (fun id => !(id = p.id))
          { st1 with selectedUnits := su }
        else
          { st1 with selectedUnits := st1.selectedUnits ++ [p.id] }
      else if p.owner = st1.playerId ∧ p.kind = Kind.building then
        { st1 with selectedBuilding := some p.id }
      else st1
    updateSelectionHighlightsP1 st2

/-- Translation of `handleCommand` (`src/unnamed/part_001`, lines
239-268): with an empty unit selection nothing happens; a resource pick
sends `harvest`; a pick with a truthy owner different from the local
player id sends `attack`; every other outcome sends `move` to the map
point. -/
def handleCommand (st : ClientState) (x y : ℚ) : Option Command :=
  if st.selectedUnits = [] then none
  else
    let unitIds := st.selectedUnits
    match pickEntityOpt st.gameState x y with
    | some target =>
      if target.kind = Kind.resource then
        sendCommand st (Command.harvest unitIds target.id)
      else if ownerTruthy target.owner ∧ target.owner ≠ st.playerId then
        sendCommand st (Command.attack unitIds target.id)
      else sendCommand st (Command.move unitIds x y)
    | none => sendCommand st (Command.move unitIds x y)

/-- Outcome of a production-button press: either a wire command or a
local-only advisory line pushed to the event log. -/
inductive ProdResult where
  | sent (c : Command)
  | advisory (msg : String)
deriving DecidableEq, Repr

/-- Translation of the static production-button click handler
(`src/unnamed/part_001`, lines 92-109): advisory when the socket is not
open or no building is selected; otherwise a `build_unit` command for
the button's `data-unit` type is sent unconditionally — no check that
the selected building can produce that type. -/
def productionClickP1 (socketOpen : Bool) (selectedBuilding : Option String)
    (unitType : String) : ProdResult :=
  if !socketOpen then
    ProdResult.advisory "Connect to a room before issuing production commands."
  else
    match selectedBuilding with
    | none => ProdResult.advisory "Select your HQ or Factory to train units."
    | some bid => ProdResult.sent (Command.buildUnit bid unitType)

/-- The `PRODUCTION_OPTIONS` table of `src/web/main.js` (lines 55-79),
reduced to the produced unit-type tokens (button labels are
display-only).  Types absent from the table get `[]`, matching the
`PRODUCTION_OPTIONS[buildingType] || []` fallback. -/
def productionOptions (buildingType : String) : List String :=
  if buildingType = "construction_yard" then ["engineer"]
  else if buildingType = "ore_refinery" then ["ore_miner"]
  else if buildingType = "barracks" then
    ["conscript", "gi", "engineer", "rocketeer"]
  else if buildingType = "war_factory" then
    ["grizzly_tank", "ifv", "mirage_tank", "prism_tank"]
  else if buildingType = "airforce_command" then ["rocketeer"]
  else []

/-- Translation of the button-creating part of
`renderProductionButtons` (`src/web/main.js`, lines 352-385): the list
of unit types that have a clickable button after rendering for the
given selected-building type.  With no building selected, or a type
whose option list is empty, no buttons exist (only hint text). -/
def renderProductionButtons (buildingType : Option String) : List String :=
  match buildingType with
  | none => []
  | some t => productionOptions t

/-- Translation of a rendered production button's click handler
(`src/web/main.js`, lines 368-382).  `selectedBuilding` in this variant
is the `{id, type}` pair.  Advisory when the socket is not open or no
building is selected; otherwise a `build_unit` command for the button's
unit type. -/
def productionClickMain (socketOpen : Bool)
    (selectedBuilding : Option (String × String)) (unitType : String) :
    ProdResult :=
  if !socketOpen then
    ProdResult.advisory "Connect to a room before issuing production commands."
  else
    match selectedBuilding with
    | none =>
      ProdResult.advisory "Select a production structure before queuing units."
    | some b => ProdResult.sent (Command.buildUnit b.1 unitType)

/-! Coordinate mapper.  Both variants convert the pointer event to a
camera ray (three.js `Raycaster.setFromCamera`; float matrix algebra
outside the embedding) and then intersect that ray with the ground
plane `y = 0`.  The embedding starts at the ray: a rational origin and
direction, universally quantified in the theorems. -/

/-- A camera ray in world space. -/
structure Ray3 where
  origin : ℚ × ℚ × ℚ
  dir : ℚ × ℚ × ℚ
deriving DecidableEq, Repr

/-- three.js `Ray.distanceToPlane` against the plane with normal
`(0,1,0)` and constant `0` (the `groundPlane` of
`src/unnamed/part_001`, line 27): a zero denominator hits only when
the origin already lies in the plane; otherwise the parameter must be
non-negative (no intersection behind the ray). -/
def distanceToPlaneY0 (r : Ray3) : Option ℚ :=
  let denom := r.dir.2.1
  if denom = 0 then
    if r.origin.2.1 = 0 then some 0 else none
  else
    let t := -(r.origin.2.1) / denom
    if 0 ≤ t then some t else none

/-- three.js `Ray.intersectPlane`: the point at the returned parameter,
if any. -/
def intersectPlaneY0 (r : Ray3) : Option (ℚ × ℚ × ℚ) :=
  (distanceToPlaneY0 r).map (fun t =>
    (r.origin.1 + t * r.dir.1, r.origin.2.1 + t * r.dir.2.1,
     r.origin.2.2 + t * r.dir.2.2))

/-- Translation of `getMapPoint` (`src/unnamed/part_001`, lines
633-649) from the ray on: intersect the ground plane, recentre into map
coordinates, and reject any point outside
`[0, mapSize.width] × [0, mapSize.height]`. -/
def getMapPoint (mapSize : ℚ × ℚ) (r : Ray3) : Option (ℚ × ℚ) :=
  match intersectPlaneY0 r with
  | none => none
  | some p =>
    let mapX := p.1 + mapSize.1 / 2
    let mapY := p.2.2 + mapSize.2 / 2
    if mapX < 0 ∨ mapY < 0 ∨ mapX > mapSize.1 ∨ mapY > mapSize.2 then none
    else some (mapX, mapY)

/-- three.js `MathUtils.clamp(value, lo, hi)` =
`Math.max(lo, Math.min(hi, value))`. -/
def clampQ (v lo hi : ℚ) : ℚ := max lo (min hi v)

/-- Raycast against the finite ground mesh of `src/web/main.js`: the
ground plane mesh occupies exactly `[0, w] × [0, h]` at `y = 0`
(`initializeMapGeometry`, lines 154-192), so a mesh hit is a plane hit
whose point lies inside that rectangle. -/
def intersectGroundMesh (mapSize : ℚ × ℚ) (r : Ray3) : Option (ℚ × ℚ × ℚ) :=
  match intersectPlaneY0 r with
  | none => none
  | some p =>
    if p.1 < 0 ∨ p.1 > mapSize.1 ∨ p.2.2 < 0 ∨ p.2.2 > mapSize.2 then none
    else some p

/-- Translation of `getGroundPoint` (`src/web/main.js`, lines 408-422)
from the ray on: raycast the ground mesh; on a hit, clamp the world
`x`/`z` coordinates into `[0, mapSize.width]` / `[0, mapSize.height]`
(in this variant world coordinates coincide with map coordinates). -/
def getGroundPoint (mapSize : ℚ × ℚ) (r : Ray3) : Option (ℚ × ℚ) :=
  match intersectGroundMesh mapSize r with
  | none => none
  | some p =>
    some (clampQ p.1 0 mapSize.1, clampQ p.2.2 0 mapSize.2)

/-! Concrete inputs used by the witness and counterexample theorems. -/

/-- Two-player table shared by the example snapshots. -/
def exPlayers : List (String × Player) :=
  [("p1", ⟨"#3b82f6", 1000⟩), ("p2", ⟨"#f97316", 1000⟩)]

/-- Snapshot with two qualifying units at a pick point where the
earlier unit in snapshot order is the farther one. -/
def gsTwoUnits : GameState :=
  { mapSize := (96, 64), players := exPlayers
    units := [⟨"u1", some "p1", "tank", (3, 0), 10, 10⟩,
              ⟨"u2", some "p1", "tank", (0, 1), 10, 10⟩]
    buildings := [], resources := [], events := [] }

/-- Snapshot where a unit and a building overlap the pick point
`(0, 0)`. -/
def gsOverlap : GameState :=
  { mapSize := (96, 64), players := exPlayers
    units := [⟨"u1", some "p1", "tank", (1, 0), 10, 10⟩]
    buildings := [⟨"b1", some "p2", "factory", (0, 0), 50, 50⟩]
    resources := [], events := [] }

/-- Snapshot holding an enemy unit, an own unit, a neutral unit, a
building of a non-producing type and a resource node, spread out so
each is individually pickable. -/
def gsMixed : GameState :=
  { mapSize := (96, 64), players := exPlayers
    units := [⟨"e1", some "p2", "tank", (5, 5), 10, 10⟩,
              ⟨"u1", some "p1", "tank", (20, 20), 10, 10⟩,
              ⟨"n1", none, "tank", (40, 40), 10, 10⟩]
    buildings := [⟨"b1", some "p1", "power_plant", (60, 20), 50, 50⟩]
    resources := [⟨"r1", (80, 40), 5000⟩], events := [] }

/-- A connected client state over `gsMixed` with one own unit selected
and the non-producing building selected. -/
def stMixed : ClientState :=
  { socketOpen := true, playerId := some "p1", playerColor := "#3b82f6"
    gameState := some gsMixed, selectedUnits := ["u1"]
    selectedBuilding := some "b1", mapSize := (96, 64)
    unitMeshes := [("u1", createUnitMeshP1 ⟨"u1", some "p1", "tank", (20, 20), 10, 10⟩)]
    buildingMeshes := [], resourceMeshes := [] }

/-- A connected client state over `gsMixed` with nothing but the
building selected (the spec's `BuildingSelected` state). -/
def stBuildingSel : ClientState :=
  { socketOpen := true, playerId := some "p1", playerColor := "#3b82f6"
    gameState := some gsMixed, selectedUnits := []
    selectedBuilding := some "b1", mapSize := (96, 64)
    unitMeshes := [], buildingMeshes := [], resourceMeshes := [] }

/-- A client state whose local player id is still null (e.g. after the
socket closed, which keeps `gameState`) over a snapshot containing a
neutral unit. -/
def stNullPlayer : ClientState :=
  { socketOpen := false, playerId := none, playerColor := "#ffffff"
    gameState := some gsMixed, selectedUnits := []
    selectedBuilding := none, mapSize := (96, 64)
    unitMeshes := [], buildingMeshes := [], resourceMeshes := [] }

/-- A client state with an own unit selected, the building selected and
a live unit proxy in the mirror, used for the close-handler claims. -/
def stWithProxies : ClientState :=
  { socketOpen := true, playerId := some "p1", playerColor := "#3b82f6"
    gameState := some gsMixed, selectedUnits := ["u2"]
    selectedBuilding := some "b1", mapSize := (96, 64)
    unitMeshes := [("u1", createUnitMeshP1 ⟨"u1", some "p1", "tank", (20, 20), 10, 10⟩)]
    buildingMeshes := [("b1", createBuildingMeshP1 ⟨"b1", some "p1", "power_plant", (60, 20), 50, 50⟩)]
    resourceMeshes := [("r1", createResourceMeshP1 ⟨"r1", (80, 40), 5000⟩)] }

/-! Helper lemmas about the JS-`Map` model and the generic
per-category reconciliation pass. -/

theorem mapGet_isSome_iff {β : Type} (m : List (String × β)) (k : String) :
    (mapGet m k).isSome = true ↔ k ∈ m.map Prod.fst := by
  induction m with
  | nil => simp [mapGet]
  | cons p t ih =>
    by_cases h : p.1 = k
    · simp [mapGet, h, eq_comm]
    · simp only [mapGet, if_neg h, ih, List.map_cons, List.mem_cons]
      constructor
      · exact Or.inr
      · rintro (h' | h')
        · exact absurd h'.symm h
        · exact h'

theorem mem_keys_mapSet {β : Type} (m : List (String × β)) (k k' : String)
    (v : β) :
    k' ∈ (mapSet m k v).map Prod.fst ↔ k' = k ∨ k' ∈ m.map Prod.fst := by
  unfold mapSet
  by_cases h : (mapGet m k).isSome
  · rw [if_pos h]
    have hk : k ∈ m.map Prod.fst := (mapGet_isSome_iff m k).1 h
    rw [List.mem_map] at hk
    obtain ⟨q, hq, hqk⟩ := hk
    simp only [List.map_map, List.mem_map, Function.comp]
    constructor
    · rintro ⟨p, hp, hpk⟩
      by_cases hpk1 : p.1 = k
      · left; rw [if_pos hpk1] at hpk; exact hpk.symm
      · right
        rw [if_neg hpk1] at hpk
        exact ⟨p, hp, hpk⟩
    · rintro (rfl | hmem)
      · exact ⟨q, hq, by rw [if_pos hqk]⟩
      · obtain ⟨p, hp, hpk⟩ := hmem
        by_cases hpk1 : p.1 = k
        · refine ⟨p, hp, ?_⟩
          rw [if_pos hpk1]
          show k = k'
          rw [← hpk1, hpk]
        · exact ⟨p, hp, by rw [if_neg hpk1]; exact hpk⟩
  · rw [if_neg h]
    simp [or_comm]

theorem syncFold_keys {α β : Type} (create : α → β) (update : β → α → β)
    (getId : α → String) (es : List α) :
    ∀ (m : List (String × β)) (seen created : List String) (k : String),
      k ∈ (es.foldl (syncStep create update getId)
            (m, seen, created)).1.map Prod.fst ↔
        k ∈ m.map Prod.fst ∨ k ∈ es.map getId := by
  induction es with
  | nil => intro m seen created k; simp
  | cons e t ih =>
    intro m seen created k
    rw [List.foldl_cons]
    rcases hg : mapGet m (getId e) with _ | mesh
    · have hstep : syncStep create update getId (m, seen, created) e =
          (mapSet m (getId e) (update (create e) e), seen ++ [getId e],
            created ++ [getId e]) := by
        simp [syncStep, hg]
      rw [hstep, ih, mem_keys_mapSet]
      simp only [List.map_cons, List.mem_cons]
      tauto
    · have hstep : syncStep create update getId (m, seen, created) e =
          (mapSet m (getId e) (update mesh e), seen ++ [getId e], created) := by
        simp [syncStep, hg]
      rw [hstep, ih, mem_keys_mapSet]
      simp only [List.map_cons, List.mem_cons]
      tauto

theorem syncFold_seen {α β : Type} (create : α → β) (update : β → α → β)
    (getId : α → String) (es : List α) :
    ∀ (m : List (String × β)) (seen created : List String) (k : String),
      k ∈ (es.foldl (syncStep create update getId) (m, seen, created)).2.1 ↔
        k ∈ seen ∨ k ∈ es.map getId := by
  induction es with
  | nil => intro m seen created k; simp
  | cons e t ih =>
    intro m seen created k
    rw [List.foldl_cons]
    rcases hg : mapGet m (getId e) with _ | mesh
    · have hstep : syncStep create update getId (m, seen, created) e =
          (mapSet m (getId e) (update (create e) e), seen ++ [getId e],
            created ++ [getId e]) := by
        simp [syncStep, hg]
      rw [hstep, ih]
      simp only [List.mem_append, List.mem_singleton, List.map_cons,
        List.mem_cons]
      tauto
    · have hstep : syncStep create update getId (m, seen, created) e =
          (mapSet m (getId e) (update mesh e), seen ++ [getId e], created) := by
        simp [syncStep, hg]
      rw [hstep, ih]
      simp only [List.mem_append, List.mem_singleton, List.map_cons,
        List.mem_cons]
      tauto

theorem syncFold_created {α β : Type} (create : α → β) (update : β → α → β)
    (getId : α → String) (es : List α) :
    ∀ (m : List (String × β)) (seen created : List String),
      (∀ e ∈ es, getId e ∈ m.map Prod.fst) →
      (es.foldl (syncStep create update getId) (m, seen, created)).2.2 =
        created := by
  induction es with
  | nil => intro m seen created _; simp
  | cons e t ih =>
    intro m seen created h
    have he : getId e ∈ m.map Prod.fst := h e (List.mem_cons_self e t)
    obtain ⟨mesh, hg⟩ :=
      Option.isSome_iff_exists.1 ((mapGet_isSome_iff m (getId e)).2 he)
    rw [List.foldl_cons]
    have hstep : syncStep create update getId (m, seen, created) e =
        (mapSet m (getId e) (update mesh e), seen ++ [getId e], created) := by
      simp [syncStep, hg]
    rw [hstep]
    apply ih
    intro e' he'
    rw [mem_keys_mapSet]
    exact Or.inr (h e' (List.mem_cons_of_mem e he'))

theorem syncMeshes_mem_keys {α β : Type} (create : α → β)
    (update : β → α → β) (getId : α → String) (m : List (String × β))
    (es : List α) (k : String) :
    k ∈ (syncMeshes create update getId m es).meshes.map Prod.fst ↔
      k ∈ es.map getId := by
  unfold syncMeshes
  simp only
  constructor
  · intro hmem
    rw [List.mem_map] at hmem
    obtain ⟨p, hp, rfl⟩ := hmem
    rw [List.mem_filter] at hp
    have hseen := of_decide_eq_true hp.2
    have := (syncFold_seen create update getId es m [] [] p.1).1 hseen
    simpa using this
  · intro hid
    have hkeys : k ∈ (es.foldl (syncStep create update getId)
        (m, [], [])).1.map Prod.fst :=
      (syncFold_keys create update getId es m [] [] k).2 (Or.inr hid)
    have hseen : k ∈ (es.foldl (syncStep create update getId)
        (m, [], [])).2.1 :=
      (syncFold_seen create update getId es m [] [] k).2 (Or.inr hid)
    rw [List.mem_map] at hkeys
    obtain ⟨p, hp, hpk⟩ := hkeys
    rw [List.mem_map]
    refine ⟨p, ?_, hpk⟩
    rw [List.mem_filter]
    exact ⟨hp, decide_eq_true (by rw [hpk]; exact hseen)⟩

theorem syncMeshes_again_created {α β : Type} (create : α → β)
    (update : β → α → β) (getId : α → String) (m : List (String × β))
    (es : List α) :
    (syncMeshes create update getId
      (syncMeshes create update getId m es).meshes es).created = [] := by
  unfold syncMeshes
  simp only
  apply syncFold_created
  intro e he
  have : getId e ∈ es.map getId := List.mem_map_of_mem getId he
  exact (syncMeshes_mem_keys create update getId m es (getId e)).2 this

theorem syncMeshes_again_destroyed {α β : Type} (create : α → β)
    (update : β → α → β) (getId : α → String) (m : List (String × β))
    (es : List α) :
    (syncMeshes create update getId
      (syncMeshes create update getId m es).meshes es).destroyed = [] := by
  have hkeys := syncMeshes_mem_keys create update getId m es
  set m2 := (syncMeshes create update getId m es).meshes with hm2
  unfold syncMeshes
  simp only
  rw [List.map_eq_nil_iff, List.filter_eq_nil_iff]
  intro p hp
  have hpk : p.1 ∈ (es.foldl (syncStep create update getId)
      (m2, [], [])).1.map Prod.fst :=
    List.mem_map_of_mem Prod.fst hp
  rw [syncFold_keys] at hpk
  have hid : p.1 ∈ es.map getId := by
    rcases hpk with h | h
    · exact (hkeys p.1).1 h
    · exact h
  have hseen : p.1 ∈ (es.foldl (syncStep create update getId)
      (m2, [], [])).2.1 :=
    (syncFold_seen create update getId es m2 [] [] p.1).2 (Or.inr hid)
  simp [hseen]

theorem updateSelectionHighlightsP1_selection (st : ClientState) :
    (updateSelectionHighlightsP1 st).selectedUnits = st.selectedUnits ∧
    (updateSelectionHighlightsP1 st).selectedBuilding = st.selectedBuilding ∧
    (updateSelectionHighlightsP1 st).playerId = st.playerId :=
  ⟨rfl, rfl, rfl⟩

theorem updateScene_selection (st : ClientState) :
    (updateScene st).selectedUnits = st.selectedUnits ∧
    (updateScene st).selectedBuilding = st.selectedBuilding := by
  unfold updateScene
  cases h : st.gameState with
  | none => exact ⟨rfl, rfl⟩
  | some gs => exact ⟨rfl, rfl⟩

theorem handleStateMessage_selection (st : ClientState) (snap : GameState) :
    (handleStateMessage st snap).selectedUnits =
      st.selectedUnits.filter
        (fun id => (snap.units.map (fun u => u.id)).contains id) ∧
    (handleStateMessage st snap).selectedBuilding =
      (if snap.buildings.any (fun b => decide (some b.id = st.selectedBuilding))
       then st.selectedBuilding else none) := by
  unfold handleStateMessage
  refine ⟨?_, ?_⟩
  · rw [(updateScene_selection _).1]
  · rw [(updateScene_selection _).2]

/-! Claim theorems. -/

/-- C1: for every snapshot, after the per-category reconciliation
passes (`updateUnits` / `updateBuildings` / `updateResources` of
`src/web/main.js`; `src/unnamed/part_001` runs the same loop pair), the
key set of each mirror map equals exactly the set of ids of the
corresponding category present in the snapshot — one proxy per id, no
more, no less. -/
theorem C1_mirror_keys_match_snapshot (gs : GameState) (playerColor : String)
    (unitMeshes buildingMeshes resourceMeshes : List (String × Mesh))
    (k : String) :
    (k ∈ (updateUnits gs playerColor unitMeshes).meshes.map Prod.fst ↔
      k ∈ gs.units.map (fun u => u.id)) ∧
    (k ∈ (updateBuildings gs playerColor buildingMeshes).meshes.map Prod.fst ↔
      k ∈ gs.buildings.map (fun b => b.id)) ∧
    (k ∈ (updateResources gs resourceMeshes).meshes.map Prod.fst ↔
      k ∈ gs.resources.map (fun r => r.id)) :=
  ⟨syncMeshes_mem_keys _ _ _ unitMeshes gs.units k,
   syncMeshes_mem_keys _ _ _ buildingMeshes gs.buildings k,
   syncMeshes_mem_keys _ _ _ resourceMeshes gs.resources k⟩

/-- C6: reconciliation is idempotent — running the per-category pass a
second time with the same snapshot, starting from the mirror the first
run produced, creates no proxy and destroys no proxy in any of the
three categories. -/
theorem C6_reconcile_idempotent (gs : GameState) (playerColor : String)
    (unitMeshes buildingMeshes resourceMeshes : List (String × Mesh)) :
    ((updateUnits gs playerColor
        (updateUnits gs playerColor unitMeshes).meshes).created = [] ∧
     (updateUnits gs playerColor
        (updateUnits gs playerColor unitMeshes).meshes).destroyed = []) ∧
    ((updateBuildings gs playerColor
        (updateBuildings gs playerColor buildingMeshes).meshes).created = [] ∧
     (updateBuildings gs playerColor
        (updateBuildings gs playerColor buildingMeshes).meshes).destroyed
       = []) ∧
    ((updateResources gs
        (updateResources gs resourceMeshes).meshes).created = [] ∧
     (updateResources gs
        (updateResources gs resourceMeshes).meshes).destroyed = []) :=
  ⟨⟨syncMeshes_again_created _ _ _ unitMeshes gs.units,
    syncMeshes_again_destroyed _ _ _ unitMeshes gs.units⟩,
   ⟨syncMeshes_again_created _ _ _ buildingMeshes gs.buildings,
    syncMeshes_again_destroyed _ _ _ buildingMeshes gs.buildings⟩,
   ⟨syncMeshes_again_created _ _ _ resourceMeshes gs.resources,
    syncMeshes_again_destroyed _ _ _ resourceMeshes gs.resources⟩⟩

/-- C3 counterexample: the socket `close` handler empties the selection
and discards the player id, but it does not clear the mirror maps — at
a state with live unit, building and resource proxies, all three mirror
maps are still non-empty afterwards, contradicting the claim that every
mirror map is empty with all proxies destroyed. -/
theorem C3_counterexample :
    (closeHandler stWithProxies).selectedUnits = [] ∧
    (closeHandler stWithProxies).selectedBuilding = none ∧
    (closeHandler stWithProxies).playerId = none ∧
    (closeHandler stWithProxies).unitMeshes ≠ [] ∧
    (closeHandler stWithProxies).buildingMeshes ≠ [] ∧
    (closeHandler stWithProxies).resourceMeshes ≠ [] :=
  ⟨rfl, rfl, rfl, List.cons_ne_nil _ _, List.cons_ne_nil _ _,
   List.cons_ne_nil _ _⟩

/-- C3 amended: on the transition into disconnected the unit selection
is emptied, the selected building is cleared and the local player id is
discarded, but the mirror maps are left untouched — their proxies are
neither removed nor destroyed (they are only removed by a later
reconciliation against a snapshot without those ids). -/
theorem C3_amended_close_keeps_mirror (st : ClientState) :
    (closeHandler st).playerId = none ∧
    (closeHandler st).selectedUnits = [] ∧
    (closeHandler st).selectedBuilding = none ∧
    (closeHandler st).unitMeshes = st.unitMeshes ∧
    (closeHandler st).buildingMeshes = st.buildingMeshes ∧
    (closeHandler st).resourceMeshes = st.resourceMeshes :=
  ⟨rfl, rfl, rfl, rfl, rfl, rfl⟩

/-- C5: after the state-message handler for snapshot S (which prunes
the selection and then reconciles), every selected unit id is the id of
a unit present in S, and the selected building id, when set, is the id
of a building present in S. -/
theorem C5_selection_pruned_after_reconcile (st : ClientState)
    (snap : GameState) :
    (∀ id ∈ (handleStateMessage st snap).selectedUnits,
       id ∈ snap.units.map (fun u => u.id)) ∧
    ((handleStateMessage st snap).selectedBuilding = none ∨
     ∃ b ∈ snap.buildings,
       (handleStateMessage st snap).selectedBuilding = some b.id) := by
  obtain ⟨hu, hb⟩ := handleStateMessage_selection st snap
  constructor
  · intro id hid
    rw [hu, List.mem_filter] at hid
    have := hid.2
    rwa [List.contains, List.elem_eq_mem, decide_eq_true_eq] at this
  · rw [hb]
    by_cases hc : snap.buildings.any
        (fun b => decide (some b.id = st.selectedBuilding)) = true
    · rw [if_pos hc]
      rw [List.any_eq_true] at hc
      obtain ⟨b, hbmem, hbid⟩ := hc
      rw [decide_eq_true_eq] at hbid
      exact Or.inr ⟨b, hbmem, hbid.symm⟩
    · rw [if_neg hc]
      exact Or.inl rfl

/-- C5 witness: at the concrete connected state `stMixed` receiving the
snapshot `gsMixed`, the selected unit id "u1" that survives pruning is
indeed a unit of the snapshot. -/
theorem C5_witness : "u1" ∈ gsMixed.units.map (fun u => u.id) :=
  (C5_selection_pruned_after_reconcile stMixed gsMixed).1 "u1"
    (by
      rw [(handleStateMessage_selection stMixed gsMixed).1]
      decide)

/-- C2 counterexample: the within-category tie-break is list order, not
distance.  In `gsTwoUnits` both units qualify at pick point `(0, 0)`;
"u2" (distance 1) is strictly nearer than "u1" (distance 3), yet
`pickEntity` returns "u1" because it comes first in the snapshot's unit
list — refuting the claim that the smallest distance wins within a
category. -/
theorem C2_counterexample :
    (⟨"u2", some "p1", "tank", (0, 1), 10, 10⟩ : GameUnit) ∈
      gsTwoUnits.units ∧
    withinRadius 0 1 0 0 unitPickThreshold = true ∧
    ((0:ℚ) - 0) * (0 - 0) + (1 - 0) * (1 - 0) <
      (3 - 0) * (3 - 0) + (0 - 0) * (0 - 0) ∧
    pickEntity gsTwoUnits 0 0 = some ⟨"u1", some "p1", Kind.unit⟩ := by
  refine ⟨by simp [gsTwoUnits], ?_, by norm_num, ?_⟩
  · simp only [withinRadius, unitPickThreshold, decide_eq_true_eq]
    norm_num
  · norm_num [pickEntity, gsTwoUnits, List.find?, withinRadius,
      unitPickThreshold]

/-- C2 amended: the category priority unit > building > resource holds
exactly as claimed — whenever any unit qualifies at the pick point, the
pick is a unit, regardless of qualifying buildings or resources — but
within a category the winner is the first qualifying entity in snapshot
order (the semantics of `List.find?`), not the one with the smallest
distance. -/
theorem C2_amended_pick_priority_first_match (gs : GameState) (x y : ℚ)
    (u : GameUnit)
    (h : gs.units.find?
      (fun v => withinRadius v.pos.1 v.pos.2 x y unitPickThreshold) =
        some u) :
    u ∈ gs.units ∧
    withinRadius u.pos.1 u.pos.2 x y unitPickThreshold = true ∧
    pickEntity gs x y = some ⟨u.id, u.owner, Kind.unit⟩ := by
  have hmem := List.mem_of_find?_eq_some h
  have hq := List.find?_some h
  refine ⟨hmem, hq, ?_⟩
  unfold pickEntity
  rw [h]

/-- C2 witness: in `gsOverlap` a unit and a building overlap the pick
point `(0, 0)`; the first qualifying unit is "u1" and the pick is that
unit, not the building. -/
theorem C2_witness :
    pickEntity gsOverlap 0 0 = some ⟨"u1", some "p1", Kind.unit⟩ :=
  (C2_amended_pick_priority_first_match gsOverlap 0 0
    ⟨"u1", some "p1", "tank", (1, 0), 10, 10⟩
    (by
      norm_num [gsOverlap, List.find?, withinRadius,
        unitPickThreshold])).2.2

/-- C4: dispatch of a secondary (right-click) gesture with a non-empty
unit selection, an open socket and a resolved map point: a resource
pick emits `harvest` with that resource id; a pick whose owner is a
(truthy) player id different from the local player id emits `attack`
with that target id; any other pick — no pick, a neutral owner, or an
entity of the local player — emits `move` with the selected unit ids
and the map point. -/
theorem C4_secondary_click_dispatch (st : ClientState) (gs : GameState)
    (x y : ℚ) (hgs : st.gameState = some gs)
    (hsel : st.selectedUnits ≠ []) (hopen : st.socketOpen = true) :
    (∀ t, pickEntity gs x y = some t → t.kind = Kind.resource →
      handleCommand st x y = some (Command.harvest st.selectedUnits t.id)) ∧
    (∀ t, pickEntity gs x y = some t → t.kind ≠ Kind.resource →
      ownerTruthy t.owner = true → t.owner ≠ st.playerId →
      handleCommand st x y = some (Command.attack st.selectedUnits t.id)) ∧
    (∀ t, pickEntity gs x y = some t → t.kind ≠ Kind.resource →
      (ownerTruthy t.owner = false ∨ t.owner = st.playerId) →
      handleCommand st x y = some (Command.move st.selectedUnits x y)) ∧
    (pickEntity gs x y = none →
      handleCommand st x y = some (Command.move st.selectedUnits x y)) := by
  refine ⟨?_, ?_, ?_, ?_⟩
  · intro t hpick hkind
    simp [handleCommand, hsel, pickEntityOpt, hgs, hpick, hkind,
      sendCommand, hopen]
  · intro t hpick hkind howner hne
    simp [handleCommand, hsel, pickEntityOpt, hgs, hpick, hkind,
      sendCommand, hopen, howner, hne]
  · intro t hpick hkind hother
    rcases hother with howner | howner <;>
      simp [handleCommand, hsel, pickEntityOpt, hgs, hpick, hkind,
        sendCommand, hopen, howner]
  · intro hpick
    simp [handleCommand, hsel, pickEntityOpt, hgs, hpick, sendCommand, hopen]

/-- C4 witness: at `stMixed` (selection `["u1"]`, local player "p1"), a
secondary click at `(5, 5)` picks the enemy unit "e1" owned by "p2" and
emits an `attack` command on it, not `move`. -/
theorem C4_witness :
    handleCommand stMixed 5 5 = some (Command.attack ["u1"] "e1") :=
  (C4_secondary_click_dispatch stMixed gsMixed 5 5 rfl (by decide)
      rfl).2.1 ⟨"e1", some "p2", Kind.unit⟩
    (by
      norm_num [pickEntity, gsMixed, List.find?, withinRadius,
        unitPickThreshold])
    (by decide) (by decide) (by decide)

/-- C7 counterexample: in the static-button variant
(`src/unnamed/part_001`) the click handler checks only that the socket
is open and a building is selected, never the building type's
production options.  At `stMixed` the selected building "b1" has type
"power_plant", whose production list is empty, yet pressing a
production button for "conscript" does send a `build_unit` command —
refuting the claim that no network message is sent when the selected
building cannot produce the requested type. -/
theorem C7_counterexample :
    (⟨"b1", some "p1", "power_plant", (60, 20), 50, 50⟩ : GameBuilding) ∈
      gsMixed.buildings ∧
    productionOptions "power_plant" = [] ∧
    stMixed.selectedBuilding = some "b1" ∧
    productionClickP1 stMixed.socketOpen stMixed.selectedBuilding
      "conscript" = ProdResult.sent (Command.buildUnit "b1" "conscript") := by
  refine ⟨by simp [gsMixed], by decide, rfl, by decide⟩

/-- C7 amended: a production-button gesture sends a command only when
the socket is open and a building is selected.  In the
rendered-buttons variant (`src/web/main.js`) the requested type is
additionally guaranteed to lie in the selected building type's
production options, because buttons are only rendered for those
options (an empty option list renders no buttons at all, so the
claimed scenario is unreachable there); in the static-buttons variant
(`src/unnamed/part_001`) no type check exists and a `build_unit`
command is sent for any requested type once a building is selected,
while a missing building or closed socket yields only a local
advisory. -/
theorem C7_amended_production_gating (socketOpen : Bool)
    (selB : Option (String × String)) (unitType : String)
    (hbtn : unitType ∈ renderProductionButtons (selB.map Prod.snd))
    (hopen : socketOpen = true) :
    (∃ b, selB = some b ∧ unitType ∈ productionOptions b.2 ∧
      productionClickMain socketOpen selB unitType =
        ProdResult.sent (Command.buildUnit b.1 unitType)) ∧
    (∀ u, productionClickMain true none u =
      ProdResult.advisory
        "Select a production structure before queuing units.") ∧
    (∀ sb u, productionClickMain false sb u =
      ProdResult.advisory
        "Connect to a room before issuing production commands.") ∧
    (∀ t, productionOptions t = [] →
      renderProductionButtons (some t) = []) ∧
    (∀ bid u, productionClickP1 true (some bid) u =
      ProdResult.sent (Command.buildUnit bid u)) ∧
    (∀ u, productionClickP1 true none u =
      ProdResult.advisory "Select your HQ or Factory to train units.") ∧
    (∀ sb u, productionClickP1 false sb u =
      ProdResult.advisory
        "Connect to a room before issuing production commands.") := by
  subst hopen
  refine ⟨?_, fun u => rfl, fun sb u => rfl, ?_, fun bid u => rfl,
    fun u => rfl, fun sb u => rfl⟩
  · match hsb : selB with
    | none => simp [renderProductionButtons] at hbtn
    | some b => exact ⟨b, rfl, hbtn, rfl⟩
  · intro t ht
    simp [renderProductionButtons, ht]

/-- C7 witness: with the socket open and a barracks selected in the
rendered-buttons variant, the "gi" button exists and pressing it sends
`build_unit` for the selected building. -/
theorem C7_witness :
    productionClickMain true (some ("b2", "barracks")) "gi" =
      ProdResult.sent (Command.buildUnit "b2" "gi") :=
  ((C7_amended_production_gating true (some ("b2", "barracks")) "gi"
      (by decide) rfl).1.elim
    (fun b hb => by rw [hb.2.2]; rw [show b = ("b2", "barracks") from
      (Option.some_inj.1 hb.1.symm)]))

/-- C8 counterexample: an additive click on an owned, unselected unit
while a building is selected adds the unit but does not clear the
building: from `stBuildingSel` (building "b1" selected, no units), the
shift-click at `(20, 20)` picking owned unit "u1" yields a state with
both `selectedUnits = ["u1"]` and the building still selected —
refuting the claim that the building is cleared first and the
selection afterwards contains units only. -/
theorem C8_counterexample :
    (handleSelection stBuildingSel 20 20 true).selectedUnits = ["u1"] ∧
    (handleSelection stBuildingSel 20 20 true).selectedBuilding =
      some "b1" := by
  have hpick : pickEntityOpt (some gsMixed) 20 20 =
      some ⟨"u1", some "p1", Kind.unit⟩ := by
    norm_num [pickEntityOpt, pickEntity, gsMixed,
      List.find?, withinRadius, unitPickThreshold]
  constructor <;>
    simp [handleSelection, stBuildingSel, hpick,
      updateSelectionHighlightsP1]

/-- C8 amended: an additive click picking an owned unit that is not
currently selected appends it to `selectedUnits`, but the selected
building is left unchanged — the additive gesture does not clear the
building first, so unit and building selection can coexist
afterwards. -/
theorem C8_amended_additive_add_keeps_building (st : ClientState)
    (x y : ℚ) (p : Picked)
    (hpick : pickEntityOpt st.gameState x y = some p)
    (hkind : p.kind = Kind.unit) (howner : p.owner = st.playerId)
    (hnot : st.selectedUnits.contains p.id = false) :
    (handleSelection st x y true).selectedUnits =
      st.selectedUnits ++ [p.id] ∧
    (handleSelection st x y true).selectedBuilding =
      st.selectedBuilding := by
  have hmem : p.id ∉ st.selectedUnits := by
    simpa [List.contains] using hnot
  constructor <;>
    simp [handleSelection, hpick, hkind, howner, hmem,
      updateSelectionHighlightsP1]

/-- C8 witness: the amended transition evaluated at the concrete state
`stBuildingSel` and the owned unit "u1". -/
theorem C8_witness :
    (handleSelection stBuildingSel 20 20 true).selectedUnits = ["u1"] ∧
    (handleSelection stBuildingSel 20 20 true).selectedBuilding =
      some "b1" :=
  C8_amended_additive_add_keeps_building stBuildingSel 20 20
    ⟨"u1", some "p1", Kind.unit⟩
    (by
      norm_num [pickEntityOpt, stBuildingSel, pickEntity, gsMixed,
        List.find?, withinRadius, unitPickThreshold])
    rfl rfl rfl

/-- C9: the screen-to-map conversions are total and bounded — for every
camera ray, `getMapPoint` (`src/unnamed/part_001`, the rejecting
variant) returns null or a point inside
`[0, mapSize.width] × [0, mapSize.height]`, and `getGroundPoint`
(`src/web/main.js`, the clamping variant) likewise returns null or a
point in those bounds.  Totality of the Lean functions models the
never-throws part of the claim. -/
theorem C9_screen_to_map_bounded (mapSize : ℚ × ℚ) (r : Ray3) :
    (getMapPoint mapSize r = none ∨
      ∃ p, getMapPoint mapSize r = some p ∧
        0 ≤ p.1 ∧ p.1 ≤ mapSize.1 ∧ 0 ≤ p.2 ∧ p.2 ≤ mapSize.2) ∧
    (getGroundPoint mapSize r = none ∨
      ∃ p, getGroundPoint mapSize r = some p ∧
        0 ≤ p.1 ∧ p.1 ≤ mapSize.1 ∧ 0 ≤ p.2 ∧ p.2 ≤ mapSize.2) := by
  constructor
  · unfold getMapPoint
    cases hq : intersectPlaneY0 r with
    | none => exact Or.inl rfl
    | some q =>
      dsimp only
      by_cases hc : q.1 + mapSize.1 / 2 < 0 ∨ q.2.2 + mapSize.2 / 2 < 0 ∨
          q.1 + mapSize.1 / 2 > mapSize.1 ∨ q.2.2 + mapSize.2 / 2 > mapSize.2
      · rw [if_pos hc]
        exact Or.inl rfl
      · rw [if_neg hc]
        push_neg at hc
        exact Or.inr ⟨_, rfl, hc.1, hc.2.2.1, hc.2.1, hc.2.2.2⟩
  · unfold getGroundPoint intersectGroundMesh
    cases hq : intersectPlaneY0 r with
    | none => exact Or.inl rfl
    | some q =>
      dsimp only
      by_cases hc : q.1 < 0 ∨ q.1 > mapSize.1 ∨ q.2.2 < 0 ∨
          q.2.2 > mapSize.2
      · rw [if_pos hc]
        exact Or.inl rfl
      · rw [if_neg hc]
        push_neg at hc
        obtain ⟨h1, h2, h3, h4⟩ := hc
        refine Or.inr ⟨_, rfl, le_max_left _ _, ?_, le_max_left _ _, ?_⟩
        · exact max_le (h1.trans h2) (min_le_left _ _)
        · exact max_le (h3.trans h4) (min_le_left _ _)

/-- C10 counterexample: with a null local player id (the close handler
discards it but keeps `gameState`), a JS strict-equality comparison
`picked.owner === playerId` holds for a neutral entity (`null === null`),
so an additive click on the neutral unit "n1" changes the selection
from empty to `["n1"]` — refuting the claim that an additive click on
a non-owned (here neutral) entity leaves the selection unchanged. -/
theorem C10_counterexample :
    pickEntityOpt stNullPlayer.gameState 40 40 =
      some ⟨"n1", none, Kind.unit⟩ ∧
    stNullPlayer.selectedUnits = [] ∧
    (handleSelection stNullPlayer 40 40 true).selectedUnits = ["n1"] := by
  have hpick : pickEntityOpt (some gsMixed) 40 40 =
      some ⟨"n1", none, Kind.unit⟩ := by
    norm_num [pickEntityOpt, pickEntity, gsMixed,
      List.find?, withinRadius, unitPickThreshold, withinBuildingBox]
  refine ⟨hpick, rfl, ?_⟩
  simp [handleSelection, stNullPlayer, hpick, updateSelectionHighlightsP1]

/-- C10 amended: provided the local player id is set, an additive click
whose pick is any entity not owned by the local player (enemy-owned,
resource, or neutral) leaves both `selectedUnits` and
`selectedBuilding` unchanged; the no-op fails only in the
null-player-id corner where a neutral owner compares equal to the
missing player id. -/
theorem C10_amended_additive_nonowned_noop (st : ClientState) (x y : ℚ)
    (p : Picked) (pid : String) (hpid : st.playerId = some pid)
    (hpick : pickEntityOpt st.gameState x y = some p)
    (howner : p.owner ≠ some pid) :
    (handleSelection st x y true).selectedUnits = st.selectedUnits ∧
    (handleSelection st x y true).selectedBuilding =
      st.selectedBuilding := by
  have h1 : ¬(p.owner = st.playerId ∧ p.kind = Kind.unit) := by
    rw [hpid]; exact fun h => howner h.1
  have h2 : ¬(p.owner = st.playerId ∧ p.kind = Kind.building) := by
    rw [hpid]; exact fun h => howner h.1
  constructor <;>
    simp [handleSelection, hpick, h1, h2, updateSelectionHighlightsP1]

/-- C10 witness: at `stMixed` (local player "p1", unit "u1" and
building "b1" selected), an additive click at `(5, 5)` picks the enemy
unit "e1" owned by "p2" and the selection is unchanged. -/
theorem C10_witness :
    (handleSelection stMixed 5 5 true).selectedUnits = ["u1"] ∧
    (handleSelection stMixed 5 5 true).selectedBuilding = some "b1" :=
  C10_amended_additive_nonowned_noop stMixed 5 5
    ⟨"e1", some "p2", Kind.unit⟩ "p1" rfl
    (by
      norm_num [pickEntityOpt, stMixed, pickEntity, gsMixed,
        List.find?, withinRadius, unitPickThreshold])
    (by decide)

end RTS
